import Mathlib

/-!
# fflip-express: the Express integration of the fflip feature-flag engine

A shallow embedding of `lib/fflip-express.js`: the constructor
`FFlipExpressIntegration`, the request `middleware` (with the `res.render`
wrapper it installs) and the `manualRoute` handler.

JavaScript objects are association lists of own properties; an own property
that is missing reads as `none`.  The file is in strict mode (`'use strict'`,
line 1).  Where the source reads, writes or deletes a property under a name
that comes with the request (the route parameter `name`), the embedding
follows JavaScript: a read goes on to `Object.prototype`, a write on a
primitive throws, a write of `__proto__` creates no property, and a delete
of a string's own property throws.

Handlers are state passing: they take the request and response and return
the request (and response) as mutated, together with the trace of calls made
on the host's collaborators (`next`, `res.cookie`, `res.status`, `res.json`,
and the host's own `render`) and the exception thrown, if any.
-/

namespace FFlipExpress

/-! ## JavaScript objects -/

/-- Own-property read: the value of the first own property named `k`, `none`
when the object has no own property of that name. -/
def getProp {V : Type} : List (String × V) → String → Option V
  | [], _ => none
  | (k', v) :: rest, k => if k = k' then some v else getProp rest k

/-- Own-property write: replaces the value of property `k` in place, or
appends the property when the object has none of that name. -/
def setProp {V : Type} : List (String × V) → String → V → List (String × V)
  | [], k, v => [(k, v)]
  | (k', v') :: rest, k, v =>
    if k = k' then (k', v) :: rest else (k', v') :: setProp rest k v

/-- Own-property removal, `delete o[k]` on a plain object. -/
def deleteProp {V : Type} : List (String × V) → String → List (String × V)
  | [], _ => []
  | (k', v') :: rest, k =>
    if k = k' then deleteProp rest k else (k', v') :: deleteProp rest k

/-- The operator `a || d` on a string that may be `undefined`: `undefined`
and the empty string are falsy, every other string is truthy. -/
def orString : Option String → String → String
  | none, d => d
  | some s, d => if s = "" then d else s

/-- The operator `a || {}` on an object that may be `undefined`: an object
is always truthy. -/
def orEmpty {V : Type} : Option (List (String × V)) → List (String × V)
  | none => []
  | some o => o

/-- The names of the properties a plain object inherits from
`Object.prototype`; each of them reads as a function, `__proto__` as the
prototype object, none as `undefined`. -/
def objectPrototypeKeys : List String :=
  ["constructor", "__defineGetter__", "__defineSetter__", "hasOwnProperty",
   "__lookupGetter__", "__lookupSetter__", "isPrototypeOf", "propertyIsEnumerable",
   "toString", "valueOf", "__proto__", "toLocaleString"]

/-- The test `o[k] === undefined` on a plain object: the read finds neither
an own property nor a property of `Object.prototype`. -/
def readsUndefined {V : Type} (o : List (String × V)) (k : String) : Bool :=
  (getProp o k).isNone && !(objectPrototypeKeys.contains k)

/-! ## Data model -/

/-- A mapping from flag id to boolean: the override mapping carried by the
cookie, and the resolved feature set. -/
abbrev Flags := List (String × Bool)

/-- Plain data values: what cookie options and template data hold, and what
the host's cookie parser decodes a cookie to, a string for a plain cookie
and, for a JSON cookie, a primitive or an object, which is kept as a mapping
from flag id to boolean. -/
inductive Val where
  | null
  | bool (b : Bool)
  | num (n : Int)
  | str (s : String)
  | flags (m : Flags)
  deriving DecidableEq, Repr

/-- A plain data object. -/
abbrev Obj := List (String × Val)

/-- The user context handed to the engine, e.g. `{flag: 'abc'}`. -/
abbrev UserContext := List (String × String)

/-- An entry of the engine's feature registry. -/
structure Feature where
  id : String
  deriving DecidableEq, Repr

/-- The fflip engine as the integration consumes it: the registry
`fflip.features`, a plain object whose own properties are the registered
features, and the evaluation of every flag for a user. -/
structure FFlip where
  features : List (String × Feature)
  evaluate : UserContext → Flags

/-- The options object the caller may pass to the constructor; a field that
is `none` is not supplied. -/
structure UserOptions where
  cookieName : Option String
  cookieOptions : Option Obj
  manualRoutePath : Option String
  deriving DecidableEq, Repr

/-- The field `this.options`; `cookieOptions = none` is `undefined`. -/
structure Options where
  cookieName : String
  cookieOptions : Option Obj
  manualRoutePath : String
  deriving DecidableEq, Repr

/-- The integration object: the engine the constructor closes over and
`this.options`. -/
structure Integration where
  fflip : FFlip
  options : Options

/-- The constructor `FFlipExpressIntegration(fflip, options)`;
`options = none` is a call without the second argument. -/
def FFlipExpressIntegration (fflip : FFlip) (options : Option UserOptions) : Integration :=
  let options : UserOptions := match options with
    | some o => o
    | none => { cookieName := none, cookieOptions := none, manualRoutePath := none }
  { fflip := fflip
    options :=
      { cookieName := orString options.cookieName "fflip"
        cookieOptions := options.cookieOptions
        manualRoutePath := orString options.manualRoutePath "/fflip/:name/:action" } }

/-- The error objects handed to `next`: `new Error(message)` with the fields
`fflip` and `statusCode` set on it. -/
structure FFlipError where
  message : String
  fflip : Bool
  statusCode : Nat
  deriving DecidableEq, Repr

/-- A synchronous JavaScript exception: a `TypeError`, or the `RangeError`
of a call stack that is exhausted. -/
inductive JSError where
  | typeError (message : String)
  | rangeError (message : String)
  deriving DecidableEq, Repr

/-- JavaScript truthiness of a plain data value. -/
def truthy : Val → Bool
  | .null => false
  | .bool b => b
  | .num n => decide (n ≠ 0)
  | .str s => decide (s ≠ "")
  | .flags _ => true

/-- The expression `v || {}` on a value that may be `undefined`: the value
itself when it is truthy, a fresh empty object otherwise. -/
def orEmptyObject : Option Val → Val
  | none => .flags []
  | some v => if truthy v then v else .flags []

/-- The `length` of a JavaScript string: its number of UTF-16 code units. -/
def utf16Length (s : String) : Nat :=
  s.toList.foldl (fun n c => n + (if c.toNat < 65536 then 1 else 2)) 0

/-- Whether the string `s` has an own property `k`: `length`, or an index
below the length in its canonical decimal form. -/
def stringHasOwn (s : String) (k : String) : Bool :=
  k == "length" || (List.range (utf16Length s)).any (fun i => toString i == k)

/-- Whether a value has an own property `k`. -/
def hasOwn : Val → String → Bool
  | .flags m, k => (getProp m k).isSome
  | .str s, k => stringHasOwn s k
  | _, _ => false

/-- The statement `flags[name] = b` in strict mode. On an object it writes
the own property, except that `__proto__` goes to the setter inherited from
`Object.prototype` when the object has no own property of that name, and
the setter ignores a boolean. On a primitive the same setter is reached for
`__proto__`, and every other name throws a `TypeError`. -/
def assignFlag (flags : Val) (name : String) (b : Bool) : Except JSError Val :=
  match flags with
  | .flags m =>
    if name = "__proto__" ∧ getProp m name = none then .ok (.flags m)
    else .ok (.flags (setProp m name b))
  | v =>
    if name = "__proto__" then .ok v
    else .error (.typeError "Cannot create property on a primitive value")

/-- The statement `delete flags[name]` in strict mode. On an object it removes
the own property. On a string it throws a `TypeError` when `name` is an own
property of the string (these cannot be deleted); on any other primitive,
and for any other name, it does nothing. -/
def deleteFlag (flags : Val) (name : String) : Except JSError Val :=
  match flags with
  | .flags m => .ok (.flags (deleteProp m name))
  | .str s =>
    if stringHasOwn s name then .error (.typeError "Cannot delete property of a string")
    else .ok (.str s)
  | v => .ok v

/-- The success body passed to `res.json`. -/
structure AckBody where
  feature : String
  action : String
  status : Nat
  message : String
  deriving DecidableEq, Repr

/-- A reference to a caller's function (a render callback). -/
structure FnRef where
  id : Nat
  deriving DecidableEq, Repr

/-- The calls a handler makes on the host's collaborators, in order. An
argument that is `none` is `undefined`; `render fn` is a call of the host's
render function `fn`. -/
inductive Call where
  | next (err : Option FFlipError)
  | cookie (name : String) (value : Val) (options : Option Obj)
  | status (code : Nat)
  | json (body : AckBody)
  | render (fn : Nat) (view : String) (options : Option Obj) (callback : Option FnRef)
  deriving DecidableEq, Repr

/-- The field `req.cookies`: not set, `null`, or the cookie object, which maps
a cookie name to the value the cookie parser decoded. The cookie name is
configuration and is read as an own property of the cookie object. -/
inductive CookieContainer where
  | undefined
  | null
  | object (cookies : List (String × Val))
  deriving DecidableEq, Repr

/-- The route parameters `req.params`. -/
structure Params where
  name : String
  action : String
  deriving DecidableEq, Repr

/-- Modelled from the spec: the per-request resolver of `lib/request-object.js`,
which is required by the integration but is not among the sources. It holds
the engine, the override mapping (`_flags`) and the resolved feature set
(`features`). -/
structure FFlipRequestObject where
  _fflip : FFlip
  _flags : Flags
  features : Flags

/-- The request, with the field `fflip` the middleware attaches. -/
structure Request where
  params : Params
  cookies : CookieContainer
  fflip : Option FFlipRequestObject

/-- What a render field of the response holds: a render function of the host
(told apart by `id`), or the wrapper function the middleware creates. -/
inductive RenderFn where
  | host (id : Nat)
  | wrapper
  deriving DecidableEq, Repr

/-- The response: the fields `render` and `_render` (`none` while unset), and
whether `res.status` is a function, as it is on an Express response; the
methods `cookie` and `json` are always there. -/
structure Response where
  render : RenderFn
  _render : Option RenderFn
  status : Bool
  deriving DecidableEq, Repr

/-- What a handler leaves behind: the request as mutated, the calls made on
the collaborators in order, and the exception it ended with, if any. -/
structure Outcome where
  req : Request
  calls : List Call
  thrown : Option JSError

/-! ## The per-request resolver -/

/-- Modelled from the spec: the overlay of the override mapping on the
engine's result, the override winning on a key collision. -/
def overlay (computed : Flags) : Flags → Flags
  | [] => computed
  | (k, b) :: rest => setProp (overlay computed rest) k b

/-- Modelled from the spec: the override mapping decoded from the value of
the override cookie, the empty mapping when the cookie is absent or
malformed (anything but a mapping). -/
def decodeOverrides : Option Val → Flags
  | some (.flags m) => m
  | _ => []

/-- Modelled from the spec: the constructor of the resolver,
`new FFlipRequestObject(fflip, flags)`; a cookie that is absent or malformed
gives the empty override mapping, and `features` starts as the empty
mapping. -/
def FFlipRequestObject.create (fflip : FFlip) (flags : Option Val) : FFlipRequestObject :=
  { _fflip := fflip, _flags := decodeOverrides flags, features := [] }

/-- Modelled from the spec: `setForUser(userContext)` recomputes the resolved
feature set from the engine and re-applies the override overlay. -/
def FFlipRequestObject.setForUser (self : FFlipRequestObject) (user : UserContext) :
    FFlipRequestObject :=
  { self with features := overlay (self._fflip.evaluate user) self._flags }

/-- Modelled from the spec: `has(flagId)` is true iff the resolved feature set
holds `true` for the flag. -/
def FFlipRequestObject.has (self : FFlipRequestObject) (flagId : String) : Bool :=
  match getProp self.features flagId with
  | some true => true
  | _ => false

/-! ## The middleware and the render wrapper -/

/-- The method `this.middleware(req, res, next)`. Reading
`req.cookies[cookieName]` throws a `TypeError` when `req.cookies` is
`undefined` or `null`. -/
def middleware (self : Integration) (req : Request) (res : Response) :
    Except JSError (Request × Response × List Call) :=
  match req.cookies with
  | .undefined => .error (.typeError "Cannot read properties of undefined")
  | .null => .error (.typeError "Cannot read properties of null")
  | .object cookies =>
    -- Attach the fflip object to the request
    let req : Request :=
      { req with fflip := some (FFlipRequestObject.create self.fflip
          (getProp cookies self.options.cookieName)) }
    -- Wrap res.render() to set options.features automatically
    let res : Response := { res with _render := some res.render }
    let res : Response := { res with render := .wrapper }
    -- Carry On!
    .ok (req, res, [.next none])

/-- A call `f(view, options, callback)` of the function `f` held in a render
field, with the request and response as they are at the time of the call.
The wrapper reads `req.fflip.features` and calls whatever `res._render`
holds; `depth` is the call-stack depth left, and running out of it is the
JavaScript `RangeError`. `JSON_stringify` is the host's `JSON.stringify` on
a features mapping. -/
def callRender (JSON_stringify : Flags → String) :
    Nat → Request → Response → RenderFn → String → Option Obj → Option FnRef →
      Except JSError (List Call)
  | _, _, _, .host fn, view, options, callback => .ok [.render fn view options callback]
  | 0, _, _, .wrapper, _, _, _ => .error (.rangeError "Maximum call stack size exceeded")
  | depth + 1, req, res, .wrapper, view, options, callback =>
    let options := orEmpty options
    match req.fflip with
    | none => .error (.typeError "Cannot read properties of undefined")
    | some fflip =>
      let options := setProp options "Features" (Val.flags fflip.features)
      let options := setProp options "FeaturesJSON" (Val.str (JSON_stringify fflip.features))
      match res._render with
      | none => .error (.typeError "res._render is not a function")
      | some f => callRender JSON_stringify depth req res f view (some options) callback

/-- The call `res.render(view, options, callback)`. -/
def Response.callRenderField (JSON_stringify : Flags → String) (depth : Nat) (req : Request)
    (res : Response) (view : String) (options : Option Obj) (callback : Option FnRef) :
    Except JSError (List Call) :=
  callRender JSON_stringify depth req res res.render view options callback

/-! ## The manual flipping route -/

/-- The request after a write through `flags`: when the cookie held an
object, `flags` is the very object held in `req.cookies`, so the write shows
in the request; otherwise `flags` is a fresh object or a primitive and the
request is as before. -/
def writeThrough (req : Request) (cookies : List (String × Val)) (cookieName : String)
    (stored : Option Val) (flags : Val) : Request :=
  match stored with
  | some (.flags _) => { req with cookies := .object (setProp cookies cookieName flags) }
  | _ => req

/-- The end of `manualRoute`, lines 112-119, reached when the switch has
applied the action: `written` is the outcome of the write on `flags`. An
exception of the write ends the handler before any call. Otherwise the
handler calls `res.cookie`, then `res.status(200).json(...)`, where
`res.status(200)` throws a `TypeError` on a response without that method. -/
def respond (self : Integration) (req : Request) (res : Response)
    (cookies : List (String × Val)) (written : Except JSError Val) (actionName : String) :
    Outcome :=
  match written with
  | .error e => { req := req, calls := [], thrown := some e }
  | .ok flags =>
    let req' := writeThrough req cookies self.options.cookieName
      (getProp cookies self.options.cookieName) flags
    -- set new fflip cookie with new data
    let cookieCall := Call.cookie self.options.cookieName flags self.options.cookieOptions
    if res.status then
      { req := req'
        calls :=
          [ cookieCall,
            .status 200,
            .json { feature := req.params.name
                    action := req.params.action
                    status := 200
                    message := "fflip: Feature " ++ req.params.name ++ " is now " ++ actionName } ]
        thrown := none }
    else
      { req := req', calls := [cookieCall]
        thrown := some (.typeError "res.status is not a function") }

/-- The method `this.manualRoute(req, res, next)`. -/
def manualRoute (self : Integration) (req : Request) (res : Response) : Outcome :=
  let name := req.params.name
  let action := req.params.action
  -- Check if feature exists.
  if readsUndefined self.fflip.features name then
    { req := req
      calls := [.next (some { message := "FFlip: Feature " ++ name ++ " not found"
                              fflip := true
                              statusCode := 404 })]
      thrown := none }
  else
    -- Check if cookies are enabled.
    let noCookiesError : FFlipError :=
      { message := "FFlip: Cookies are not enabled.", fflip := true, statusCode := 500 }
    match req.cookies with
    | .undefined => { req := req, calls := [.next (some noCookiesError)], thrown := none }
    | .null => { req := req, calls := [.next (some noCookiesError)], thrown := none }
    | .object cookies =>
      -- Apply the new action.
      let flags := orEmptyObject (getProp cookies self.options.cookieName)
      if action = "1" then respond self req res cookies (assignFlag flags name true) "enabled"
      else if action = "0" then
        respond self req res cookies (assignFlag flags name false) "disabled"
      else if action = "-1" then respond self req res cookies (deleteFlag flags name) "removed"
      else
        { req := req
          calls := [.next (some
            { message := "FFlip: Bad Input. Action (" ++ action ++
                ") must be 1 (enable), 0 (disable), or -1 (remove)"
              fflip := true
              statusCode := 400 })]
          thrown := none }

/-- The `res.cookie` calls of a trace, as (name, value, options). -/
def cookieCalls : List Call → List (String × Val × Option Obj)
  | [] => []
  | .cookie n v o :: rest => (n, v, o) :: cookieCalls rest
  | _ :: rest => cookieCalls rest

/-- The `next` calls of a trace, each with its error argument. -/
def nextCalls : List Call → List (Option FFlipError)
  | [] => []
  | .next e :: rest => e :: nextCalls rest
  | _ :: rest => nextCalls rest

/-- The calls of a trace that send a response: `res.status` and `res.json`. -/
def responseCalls : List Call → List Call
  | [] => []
  | .status c :: rest => .status c :: responseCalls rest
  | .json b :: rest => .json b :: responseCalls rest
  | _ :: rest => responseCalls rest

/-- The calls of a trace on a host render function, as
(function, view, template data, callback). -/
def renderCalls : List Call → List (Nat × String × Option Obj × Option FnRef)
  | [] => []
  | .render fn v o c :: rest => (fn, v, o, c) :: renderCalls rest
  | _ :: rest => renderCalls rest

/-! ## A concrete setting: the engine and requests of the test suite -/

/-- The test suite's engine: its seven features, and `evaluate` for the
users of the suite as far as `fOpen` and `fClosed` go. -/
def testFFlip : FFlip :=
  { features := [("fEmpty", ⟨"fEmpty"⟩), ("fOpen", ⟨"fOpen"⟩), ("fClosed", ⟨"fClosed"⟩),
      ("fEval", ⟨"fEval"⟩), ("fEvalOr", ⟨"fEvalOr"⟩), ("fEvalComplex", ⟨"fEvalComplex"⟩),
      ("fEvalVeto", ⟨"fEvalVeto"⟩)]
    evaluate := fun _ => [("fOpen", true), ("fClosed", false)] }

/-- An engine with one more feature, whose id is `length`. -/
def lengthFFlip : FFlip :=
  { features := testFFlip.features ++ [("length", ⟨"length"⟩)]
    evaluate := testFFlip.evaluate }

/-- An engine whose registry has a feature under the name `__proto__`. -/
def protoFFlip : FFlip :=
  { features := [("__proto__", ⟨"__proto__"⟩)]
    evaluate := fun _ => [] }

/-- The test suite's `customizationOptions`. -/
def customizationOptions : UserOptions :=
  { cookieName := some "CUSTOM_COOKIE_NAME"
    cookieOptions := some [("maxAge", Val.num 123456789)]
    manualRoutePath := some "CUSTOM/PATH/:name/:action" }

/-- The integration the test suite builds in `beforeEach`. -/
def expressIntegration : Integration :=
  FFlipExpressIntegration testFFlip (some customizationOptions)

/-- A request for flag `name` and action `action` with the given cookies. -/
def reqMock (name action : String) (cookies : CookieContainer) : Request :=
  { params := { name := name, action := action }, cookies := cookies, fflip := none }

/-- The cookie object of a client that holds overrides for two flags. -/
def cookiesMock : List (String × Val) :=
  [("CUSTOM_COOKIE_NAME", Val.flags [("fOpen", false), ("fClosed", true)])]

/-- The cookie object of a client whose override cookie is the plain cookie
`CUSTOM_COOKIE_NAME=abc`. -/
def cookiesPlain : List (String × Val) :=
  [("CUSTOM_COOKIE_NAME", Val.str "abc")]

/-- The test suite's user `userXYZ`. -/
def userXYZ : UserContext := [("flag", "xyz")]

/-- The test suite's response: the host render, nothing wrapped yet, and, as
on the suite's mocks, no `status` method. -/
def resMock : Response := { render := .host 0, _render := none, status := false }

/-- An Express response: the host render and the `status` method. -/
def resExpress : Response := { render := .host 0, _render := none, status := true }

/-- The serializer used on the concrete runs below: `JSON.stringify` on a
features mapping whose keys need no escaping. -/
def stringifyFlags (m : Flags) : String :=
  let quote := String.singleton (Char.ofNat 34)
  let entry (e : String × Bool) : String :=
    quote ++ e.1 ++ quote ++ ":" ++ (if e.2 then "true" else "false")
  "\x7b" ++ ",".intercalate (m.map entry) ++ "\x7d"

/-! ## Properties of the object operations -/

theorem getProp_setProp {V : Type} (o : List (String × V)) (k : String) (v : V) (j : String) :
    getProp (setProp o k v) j = if j = k then some v else getProp o j := by
  induction o with
  | nil => simp [setProp, getProp]
  | cons e rest ih =>
    obtain ⟨k', v'⟩ := e
    by_cases hk : k = k'
    · subst hk
      by_cases hj : j = k <;> simp [setProp, getProp, hj]
    · by_cases hj : j = k'
      · subst hj
        have hjk : ¬ j = k := fun h => hk h.symm
        simp [setProp, getProp, hk, hjk]
      · simp [setProp, getProp, hk, hj, ih]

theorem getProp_deleteProp {V : Type} (o : List (String × V)) (k j : String) :
    getProp (deleteProp o k) j = if j = k then none else getProp o j := by
  induction o with
  | nil => simp [deleteProp, getProp]
  | cons e rest ih =>
    obtain ⟨k', v'⟩ := e
    by_cases hk : k = k'
    · subst hk
      by_cases hj : j = k
      · subst hj
        simpa [deleteProp, getProp] using ih
      · simp [deleteProp, getProp, hj, ih]
    · by_cases hj : j = k'
      · subst hj
        have hjk : ¬ j = k := fun h => hk h.symm
        simp [deleteProp, getProp, hk, hjk]
      · simp [deleteProp, getProp, hk, hj, ih]

theorem deleteProp_of_getProp_none {V : Type} (o : List (String × V)) (k : String)
    (h : getProp o k = none) : deleteProp o k = o := by
  induction o with
  | nil => rfl
  | cons e rest ih =>
    obtain ⟨k', v'⟩ := e
    by_cases hk : k = k'
    · simp [getProp, hk] at h
    · simp only [getProp, hk, if_false] at h
      simp [deleteProp, hk, ih h]

theorem not_mem_deleteProp {V : Type} (o : List (String × V)) (k : String) (v : V) :
    (k, v) ∉ deleteProp o k := by
  induction o with
  | nil => simp [deleteProp]
  | cons e rest ih =>
    obtain ⟨k', v'⟩ := e
    by_cases hk : k = k'
    · simpa [deleteProp, hk] using hk ▸ ih
    · simp [deleteProp, hk, ih]

theorem getProp_overlay (computed overrides : Flags) (f : String) :
    getProp (overlay computed overrides) f =
      match getProp overrides f with
      | some b => some b
      | none => getProp computed f := by
  induction overrides with
  | nil => simp [overlay, getProp]
  | cons e rest ih =>
    obtain ⟨k, b⟩ := e
    by_cases hf : f = k
    · simp [overlay, getProp, getProp_setProp, hf]
    · simp [overlay, getProp, getProp_setProp, hf, ih]

/-! ## The manual flipping route: the steps of the handler -/

theorem readsUndefined_of_own {V : Type} (o : List (String × V)) (k : String)
    (h : getProp o k ≠ none) : readsUndefined o k = false := by
  obtain ⟨v, hv⟩ := Option.ne_none_iff_exists'.mp h
  simp [readsUndefined, hv]

/-- What `manualRoute` does once the flag is registered and the cookie object
is there: the switch on the action code. -/
theorem manualRoute_of_registered (self : Integration) (req : Request) (res : Response)
    (cookies : List (String × Val))
    (hknown : getProp self.fflip.features req.params.name ≠ none)
    (hcookies : req.cookies = CookieContainer.object cookies) :
    manualRoute self req res =
      if req.params.action = "1" then
        respond self req res cookies
          (assignFlag (orEmptyObject (getProp cookies self.options.cookieName))
            req.params.name true) "enabled"
      else if req.params.action = "0" then
        respond self req res cookies
          (assignFlag (orEmptyObject (getProp cookies self.options.cookieName))
            req.params.name false) "disabled"
      else if req.params.action = "-1" then
        respond self req res cookies
          (deleteFlag (orEmptyObject (getProp cookies self.options.cookieName))
            req.params.name) "removed"
      else
        { req := req
          calls := [ Call.next (some
            { message := "FFlip: Bad Input. Action (" ++ req.params.action ++
                ") must be 1 (enable), 0 (disable), or -1 (remove)"
              fflip := true
              statusCode := 400 }) ]
          thrown := none } := by
  simp only [manualRoute, readsUndefined_of_own _ _ hknown, hcookies]
  rfl

theorem cookieCalls_respond_ok (self : Integration) (req : Request) (res : Response)
    (cookies : List (String × Val)) (flags : Val) (actionName : String) :
    cookieCalls (respond self req res cookies (Except.ok flags) actionName).calls =
      [(self.options.cookieName, flags, self.options.cookieOptions)] := by
  cases hs : res.status <;> simp [respond, hs, cookieCalls]

theorem nextCalls_respond (self : Integration) (req : Request) (res : Response)
    (cookies : List (String × Val)) (written : Except JSError Val) (actionName : String) :
    nextCalls (respond self req res cookies written actionName).calls = [] := by
  cases written with
  | error e => simp [respond, nextCalls]
  | ok flags => cases hs : res.status <;> simp [respond, hs, nextCalls]

theorem assignFlag_of_mapping (m : Flags) (name : String) (b : Bool)
    (hname : name ≠ "__proto__") :
    assignFlag (Val.flags m) name b = Except.ok (Val.flags (setProp m name b)) := by
  simp [assignFlag, hname]

theorem assignFlag_mapping_ok (m : Flags) (name : String) (b : Bool) :
    ∃ m' : Flags, assignFlag (Val.flags m) name b = Except.ok (Val.flags m') := by
  by_cases h : name = "__proto__" ∧ getProp m name = none
  · obtain ⟨h1, h2⟩ := h
    subst h1
    exact ⟨m, by simp [assignFlag, h2]⟩
  · exact ⟨setProp m name b, by simp only [assignFlag, h, if_false]⟩

/-- The delete of the action "-1" succeeds unless the value is a string that
has the name as an own property; it gives back a value without that own
property, and the very value when it had none. -/
theorem deleteFlag_ok (flags : Val) (name : String)
    (hown : ∀ s : String, flags = Val.str s → stringHasOwn s name = false) :
    ∃ written : Val, deleteFlag flags name = Except.ok written ∧
      hasOwn written name = false ∧
      (hasOwn flags name = false → written = flags) ∧
      (∀ m : Flags, flags = Val.flags m →
        ∃ m' : Flags, written = Val.flags m' ∧ getProp m' name = none ∧
          (∀ v : Bool, (name, v) ∉ m') ∧
          (∀ k : String, k ≠ name → getProp m' k = getProp m k) ∧
          (getProp m name = none → m' = m)) ∧
      ((∀ m : Flags, flags ≠ Val.flags m) → written = flags) := by
  cases flags with
  | null => exact ⟨Val.null, rfl, rfl, fun _ => rfl, fun m h => (by cases h), fun _ => rfl⟩
  | bool b => exact ⟨Val.bool b, rfl, rfl, fun _ => rfl, fun m h => (by cases h), fun _ => rfl⟩
  | num n => exact ⟨Val.num n, rfl, rfl, fun _ => rfl, fun m h => (by cases h), fun _ => rfl⟩
  | str s =>
    have hs := hown s rfl
    exact ⟨Val.str s, by simp [deleteFlag, hs], by simpa [hasOwn] using hs, fun _ => rfl,
      fun m h => (by cases h), fun _ => rfl⟩
  | flags m =>
    refine ⟨Val.flags (deleteProp m name), rfl, ?_, ?_, ?_, ?_⟩
    · simp [hasOwn, getProp_deleteProp]
    · intro h
      have hnone : getProp m name = none := by simpa [hasOwn] using h
      rw [deleteProp_of_getProp_none m name hnone]
    · intro m0 hm0
      cases hm0
      refine ⟨deleteProp m name, rfl, by simp [getProp_deleteProp],
        fun v => not_mem_deleteProp _ _ v, ?_, deleteProp_of_getProp_none _ _⟩
      intro k hk
      simp [getProp_deleteProp, hk]
    · intro h
      exact absurd rfl (h m)

/-- When `v || {}` is a mapping: the value is that mapping, or it is missing
or falsy and the mapping is the fresh empty object. -/
theorem orEmptyObject_eq_flags_iff (v : Option Val) (m : Flags) :
    orEmptyObject v = Val.flags m ↔
      v = some (Val.flags m) ∨
      ((v = none ∨ ∃ w : Val, v = some w ∧ truthy w = false) ∧ m = []) := by
  cases v with
  | none =>
    constructor
    · intro h
      have hm : m = [] := by
        simp only [orEmptyObject, Val.flags.injEq] at h
        exact h.symm
      exact Or.inr ⟨Or.inl rfl, hm⟩
    · rintro (h | ⟨_, hm⟩)
      · cases h
      · rw [hm]
        rfl
  | some w =>
    cases hw : truthy w
    · constructor
      · intro h
        have hm : m = [] := by
          simp only [orEmptyObject, hw, Bool.false_eq_true, if_false, Val.flags.injEq] at h
          exact h.symm
        exact Or.inr ⟨Or.inr ⟨w, rfl, hw⟩, hm⟩
      · rintro (h | ⟨_, hm⟩)
        · cases h
          simp [truthy] at hw
        · rw [hm]
          simp only [orEmptyObject, hw, Bool.false_eq_true, if_false]
    · constructor
      · intro h
        simp only [orEmptyObject, hw, if_true] at h
        exact Or.inl (by rw [h])
      · rintro (h | ⟨h, _⟩)
        · cases h
          simp only [orEmptyObject, hw, if_true]
        · rcases h with h | ⟨w', h, hw'⟩
          · cases h
          · cases h
            rw [hw] at hw'
            cases hw'

/-! ## The manual flipping route: success -/

/-- C1, as the code has it. For a flag name registered with the engine and
other than `__proto__`, a request whose cookie object is there and whose
cookie of the configured name is missing, falsy or an override mapping (so
that `req.cookies[cookieName] || {}` is the mapping `m`), and action "1"
(`b = true`) or "0" (`b = false`), `manualRoute` calls `res.cookie` exactly
once, with the configured cookie name, the configured cookie options, and a
mapping that reads `b` at the flag and, at every other key, what `m` reads;
`next` is not called. -/
theorem manualRoute_enable_disable (self : Integration) (req : Request) (res : Response)
    (cookies : List (String × Val)) (m : Flags) (b : Bool)
    (hknown : getProp self.fflip.features req.params.name ≠ none)
    (hname : req.params.name ≠ "__proto__")
    (hcookies : req.cookies = CookieContainer.object cookies)
    (hread : orEmptyObject (getProp cookies self.options.cookieName) = Val.flags m)
    (haction : req.params.action = if b then "1" else "0") :
    ∃ written : Flags,
      cookieCalls (manualRoute self req res).calls =
        [(self.options.cookieName, Val.flags written, self.options.cookieOptions)] ∧
      nextCalls (manualRoute self req res).calls = [] ∧
      written = setProp m req.params.name b ∧
      ∀ k : String, getProp written k =
        if k = req.params.name then some b else getProp m k := by
  refine ⟨setProp m req.params.name b, ?_, ?_, rfl, fun k => getProp_setProp _ _ _ k⟩
  · rw [manualRoute_of_registered self req res cookies hknown hcookies, hread]
    cases b <;>
      simp [haction, assignFlag_of_mapping m _ _ hname, cookieCalls_respond_ok]
  · rw [manualRoute_of_registered self req res cookies hknown hcookies]
    cases b <;> simp [haction, nextCalls_respond]

/-- C1 as amended, at the test suite's request (flag `fClosed`, action "1")
with a cookie that holds overrides. -/
theorem manualRoute_enable_disable_witness :
    getProp expressIntegration.fflip.features
        (reqMock "fClosed" "1" (CookieContainer.object cookiesMock)).params.name ≠ none ∧
    orEmptyObject (getProp cookiesMock expressIntegration.options.cookieName) =
        Val.flags [("fOpen", false), ("fClosed", true)] ∧
    ∃ written : Flags,
      cookieCalls (manualRoute expressIntegration
          (reqMock "fClosed" "1" (CookieContainer.object cookiesMock)) resMock).calls =
        [(expressIntegration.options.cookieName, Val.flags written,
          expressIntegration.options.cookieOptions)] ∧
      nextCalls (manualRoute expressIntegration
          (reqMock "fClosed" "1" (CookieContainer.object cookiesMock)) resMock).calls = [] ∧
      written = setProp [("fOpen", false), ("fClosed", true)]
        (reqMock "fClosed" "1" (CookieContainer.object cookiesMock)).params.name true ∧
      ∀ k : String, getProp written k =
        if k = (reqMock "fClosed" "1" (CookieContainer.object cookiesMock)).params.name
        then some true
        else getProp [("fOpen", false), ("fClosed", true)] k :=
  ⟨by decide, by decide,
   manualRoute_enable_disable expressIntegration
     (reqMock "fClosed" "1" (CookieContainer.object cookiesMock)) resMock cookiesMock
     [("fOpen", false), ("fClosed", true)] true
     (by decide) (by decide) rfl (by decide) rfl⟩

/-- C1 as stated fails. With the plain cookie `CUSTOM_COOKIE_NAME=abc` on the
request (registered flag `fClosed`, cookie object there, action "1"), the
write `flags[name] = true` on the string throws a `TypeError` and
`res.cookie` is not called. And for the name `__proto__`, on an engine that
knows it, the write creates no property: the mapping handed to `res.cookie`
is the empty mapping read, without an entry for the name. -/
theorem manualRoute_enable_disable_counterexample :
    (getProp expressIntegration.fflip.features "fClosed" ≠ none ∧
      cookieCalls (manualRoute expressIntegration
        (reqMock "fClosed" "1" (CookieContainer.object cookiesPlain)) resExpress).calls = [] ∧
      (manualRoute expressIntegration
        (reqMock "fClosed" "1" (CookieContainer.object cookiesPlain)) resExpress).thrown =
        some (JSError.typeError "Cannot create property on a primitive value")) ∧
    (getProp protoFFlip.features "__proto__" ≠ none ∧
      cookieCalls (manualRoute (FFlipExpressIntegration protoFFlip none)
        (reqMock "__proto__" "1" (CookieContainer.object [])) resExpress).calls =
        [("fflip", Val.flags [], none)]) :=
  ⟨⟨by decide, by decide, by decide⟩, by decide, by decide⟩

/-- C2, as the code has it. For a flag registered with the engine, a request
whose cookie object is there, and action "-1", unless the value read from
the cookie of the configured name is a string that has the flag name as an
own property: `manualRoute` calls `res.cookie` once under the configured
cookie name with a value that has no own property for the flag and is the
value read itself when that had none; when the value read is a mapping, the
value written is a mapping without an entry for the flag that reads at every
other key what the mapping read reads. -/
theorem manualRoute_remove (self : Integration) (req : Request) (res : Response)
    (cookies : List (String × Val))
    (hknown : getProp self.fflip.features req.params.name ≠ none)
    (hcookies : req.cookies = CookieContainer.object cookies)
    (haction : req.params.action = "-1")
    (hown : ∀ s : String,
      orEmptyObject (getProp cookies self.options.cookieName) = Val.str s →
        stringHasOwn s req.params.name = false) :
    ∃ written : Val,
      cookieCalls (manualRoute self req res).calls =
        [(self.options.cookieName, written, self.options.cookieOptions)] ∧
      hasOwn written req.params.name = false ∧
      (hasOwn (orEmptyObject (getProp cookies self.options.cookieName)) req.params.name = false →
        written = orEmptyObject (getProp cookies self.options.cookieName)) ∧
      (∀ m : Flags, orEmptyObject (getProp cookies self.options.cookieName) = Val.flags m →
        ∃ m' : Flags, written = Val.flags m' ∧ getProp m' req.params.name = none ∧
          (∀ v : Bool, (req.params.name, v) ∉ m') ∧
          (∀ k : String, k ≠ req.params.name → getProp m' k = getProp m k) ∧
          (getProp m req.params.name = none → m' = m)) ∧
      ((∀ m : Flags, orEmptyObject (getProp cookies self.options.cookieName) ≠ Val.flags m) →
        written = orEmptyObject (getProp cookies self.options.cookieName)) := by
  obtain ⟨written, hdel, h1, h2, h3, h4⟩ :=
    deleteFlag_ok (orEmptyObject (getProp cookies self.options.cookieName))
      req.params.name hown
  refine ⟨written, ?_, h1, h2, h3, h4⟩
  rw [manualRoute_of_registered self req res cookies hknown hcookies, hdel]
  simp [haction, cookieCalls_respond_ok]

/-- C2 as amended, at flag `fClosed` with a cookie that holds an override
for it. -/
theorem manualRoute_remove_witness :
    getProp expressIntegration.fflip.features
        (reqMock "fClosed" "-1" (CookieContainer.object cookiesMock)).params.name ≠ none ∧
    ∃ written : Val,
      cookieCalls (manualRoute expressIntegration
          (reqMock "fClosed" "-1" (CookieContainer.object cookiesMock)) resMock).calls =
        [(expressIntegration.options.cookieName, written,
          expressIntegration.options.cookieOptions)] ∧
      hasOwn written
        (reqMock "fClosed" "-1" (CookieContainer.object cookiesMock)).params.name = false ∧
      (hasOwn (orEmptyObject (getProp cookiesMock expressIntegration.options.cookieName))
          (reqMock "fClosed" "-1" (CookieContainer.object cookiesMock)).params.name = false →
        written = orEmptyObject (getProp cookiesMock expressIntegration.options.cookieName)) ∧
      (∀ m : Flags,
        orEmptyObject (getProp cookiesMock expressIntegration.options.cookieName) =
          Val.flags m →
        ∃ m' : Flags, written = Val.flags m' ∧
          getProp m'
            (reqMock "fClosed" "-1" (CookieContainer.object cookiesMock)).params.name = none ∧
          (∀ v : Bool,
            ((reqMock "fClosed" "-1" (CookieContainer.object cookiesMock)).params.name, v)
              ∉ m') ∧
          (∀ k : String,
            k ≠ (reqMock "fClosed" "-1" (CookieContainer.object cookiesMock)).params.name →
            getProp m' k = getProp m k) ∧
          (getProp m
            (reqMock "fClosed" "-1" (CookieContainer.object cookiesMock)).params.name = none →
            m' = m)) ∧
      ((∀ m : Flags,
        orEmptyObject (getProp cookiesMock expressIntegration.options.cookieName) ≠
          Val.flags m) →
        written = orEmptyObject (getProp cookiesMock expressIntegration.options.cookieName)) :=
  ⟨by decide,
   manualRoute_remove expressIntegration
     (reqMock "fClosed" "-1" (CookieContainer.object cookiesMock)) resMock cookiesMock
     (by decide) rfl rfl (fun s h => by cases h)⟩

/-- The remove action on a plain string cookie that has no own property of
the flag's name: nothing throws and the string read is written back. -/
theorem manualRoute_remove_on_plain_cookie :
    (manualRoute expressIntegration
      (reqMock "fClosed" "-1" (CookieContainer.object cookiesPlain)) resExpress).calls =
      [ Call.cookie "CUSTOM_COOKIE_NAME" (Val.str "abc")
          (some [("maxAge", Val.num 123456789)]),
        Call.status 200,
        Call.json { feature := "fClosed", action := "-1", status := 200
                    message := "fflip: Feature fClosed is now removed" } ] := by
  decide

/-- C2 as stated fails. On an engine with a feature whose id is `length`, a
request for that flag with action "-1" and the plain cookie
`CUSTOM_COOKIE_NAME=abc`: `delete flags[name]` on the string throws a
`TypeError`, since `length` is an own property of a string, and nothing is
written with `res.cookie`. -/
theorem manualRoute_remove_counterexample :
    getProp (FFlipExpressIntegration lengthFFlip (some customizationOptions)).fflip.features
      "length" ≠ none ∧
    cookieCalls (manualRoute (FFlipExpressIntegration lengthFFlip (some customizationOptions))
      (reqMock "length" "-1" (CookieContainer.object cookiesPlain)) resExpress).calls = [] ∧
    (manualRoute (FFlipExpressIntegration lengthFFlip (some customizationOptions))
      (reqMock "length" "-1" (CookieContainer.object cookiesPlain)) resExpress).thrown =
      some (JSError.typeError "Cannot delete property of a string") := by
  decide

/-- C3, as the code has it. Take a flag registered with the engine, a request
whose cookie object is there, a response that has the `status` method, and
an action code "1", "0" or "-1" with its label "enabled", "disabled" or
"removed"; let the cookie of the configured name be missing, falsy or an
override mapping or, for action "-1", any value but a string that has the
flag name as an own property. Then `manualRoute` sets status 200 and sends
one JSON body, and does not throw: `feature` is the flag name, `action` the
action code, `status` 200, and `message` is
"fflip: Feature {name} is now {label}". -/
theorem manualRoute_acknowledgement (self : Integration) (req : Request) (res : Response)
    (cookies : List (String × Val)) (label : String)
    (hknown : getProp self.fflip.features req.params.name ≠ none)
    (hcookies : req.cookies = CookieContainer.object cookies)
    (hread : (∃ m : Flags,
        orEmptyObject (getProp cookies self.options.cookieName) = Val.flags m) ∨
      (req.params.action = "-1" ∧ ∀ s : String,
        orEmptyObject (getProp cookies self.options.cookieName) = Val.str s →
          stringHasOwn s req.params.name = false))
    (hstatus : res.status = true)
    (haction : (req.params.action, label) ∈
      [("1", "enabled"), ("0", "disabled"), ("-1", "removed")]) :
    responseCalls (manualRoute self req res).calls =
      [ Call.status 200,
        Call.json { feature := req.params.name
                    action := req.params.action
                    status := 200
                    message := "fflip: Feature " ++ req.params.name ++ " is now " ++ label } ] ∧
    (manualRoute self req res).thrown = none := by
  rw [manualRoute_of_registered self req res cookies hknown hcookies]
  simp only [List.mem_cons, Prod.mk.injEq, List.mem_singleton, List.not_mem_nil,
    or_false] at haction
  rcases hread with ⟨m, hm⟩ | ⟨hdel, hown⟩
  · rw [hm]
    rcases haction with ⟨ha, hl⟩ | ⟨ha, hl⟩ | ⟨ha, hl⟩ <;> subst hl
    · obtain ⟨m', hm'⟩ := assignFlag_mapping_ok m req.params.name true
      simp [ha, hm', respond, hstatus, responseCalls]
    · obtain ⟨m', hm'⟩ := assignFlag_mapping_ok m req.params.name false
      simp [ha, hm', respond, hstatus, responseCalls]
    · simp [ha, deleteFlag, respond, hstatus, responseCalls]
  · obtain ⟨written, hw, _⟩ :=
      deleteFlag_ok (orEmptyObject (getProp cookies self.options.cookieName))
        req.params.name hown
    have hl : label = "removed" := by
      rcases haction with ⟨ha, _⟩ | ⟨ha, _⟩ | ⟨_, hl⟩
      · rw [hdel] at ha
        exact absurd ha (by decide)
      · rw [hdel] at ha
        exact absurd ha (by decide)
      · exact hl
    subst hl
    rw [hw]
    simp [hdel, respond, hstatus, responseCalls]

/-- C3 as amended, at the test suite's request (flag `fClosed`, action "1",
empty cookie object) on an Express response. -/
theorem manualRoute_acknowledgement_witness :
    getProp expressIntegration.fflip.features
        (reqMock "fClosed" "1" (CookieContainer.object [])).params.name ≠ none ∧
    orEmptyObject (getProp ([] : List (String × Val)) expressIntegration.options.cookieName) =
        Val.flags [] ∧
    resExpress.status = true ∧
    responseCalls (manualRoute expressIntegration
        (reqMock "fClosed" "1" (CookieContainer.object [])) resExpress).calls =
      [ Call.status 200,
        Call.json { feature := (reqMock "fClosed" "1" (CookieContainer.object [])).params.name
                    action := (reqMock "fClosed" "1" (CookieContainer.object [])).params.action
                    status := 200
                    message := "fflip: Feature " ++
                      (reqMock "fClosed" "1" (CookieContainer.object [])).params.name ++
                      " is now " ++ "enabled" } ] ∧
    (manualRoute expressIntegration
        (reqMock "fClosed" "1" (CookieContainer.object [])) resExpress).thrown = none :=
  ⟨by decide, rfl, rfl,
   manualRoute_acknowledgement expressIntegration
     (reqMock "fClosed" "1" (CookieContainer.object [])) resExpress [] "enabled"
     (by decide) rfl (Or.inl ⟨[], rfl⟩) rfl (by decide)⟩

/-- C3 as stated fails, in three ways. On the test suite's request (registered
flag `fClosed`, empty cookie object, action "1") and an Express response, the
one body sent has the message "fflip: Feature fClosed is now enabled", not
"feature fClosed is now enabled". With the plain cookie
`CUSTOM_COOKIE_NAME=abc` on the request the handler throws before any status
or body is sent. And on the test suite's response, which has no `status`
method, it throws after `res.cookie`, and no status or body is sent. -/
theorem manualRoute_acknowledgement_counterexample :
    getProp expressIntegration.fflip.features "fClosed" ≠ none ∧
    ((manualRoute expressIntegration
        (reqMock "fClosed" "1" (CookieContainer.object [])) resExpress).calls =
      [ Call.cookie "CUSTOM_COOKIE_NAME" (Val.flags [("fClosed", true)])
          (some [("maxAge", Val.num 123456789)]),
        Call.status 200,
        Call.json { feature := "fClosed", action := "1", status := 200
                    message := "fflip: Feature fClosed is now enabled" } ] ∧
      "fflip: Feature fClosed is now enabled" ≠ "feature fClosed is now enabled") ∧
    (responseCalls (manualRoute expressIntegration
        (reqMock "fClosed" "1" (CookieContainer.object cookiesPlain)) resExpress).calls = [] ∧
      (manualRoute expressIntegration
        (reqMock "fClosed" "1" (CookieContainer.object cookiesPlain)) resExpress).thrown =
        some (JSError.typeError "Cannot create property on a primitive value")) ∧
    (responseCalls (manualRoute expressIntegration
        (reqMock "fClosed" "1" (CookieContainer.object [])) resMock).calls = [] ∧
      (manualRoute expressIntegration
        (reqMock "fClosed" "1" (CookieContainer.object [])) resMock).thrown =
        some (JSError.typeError "res.status is not a function")) :=
  ⟨by decide, ⟨by decide, by decide⟩, ⟨by decide, by decide⟩, ⟨by decide, by decide⟩⟩

/-! ## The manual flipping route: failures -/

/-- C4 fails on the names a plain object inherits. `toString` is no feature
of the test suite's engine, yet for the request `toString`, action "1", empty
cookie object, the check `fflip.features[name] === undefined` finds the
function inherited from `Object.prototype`: the handler does not call `next`,
it writes the cookie with `toString: true` and answers 200. For
`hasOwnProperty` with `req.cookies = null` the error handed to `next` is the
500 of the cookie check, not the 404. -/
theorem manualRoute_inherited_name_passes_check :
    (getProp expressIntegration.fflip.features "toString" = none ∧
      (manualRoute expressIntegration
        (reqMock "toString" "1" (CookieContainer.object [])) resExpress).calls =
        [ Call.cookie "CUSTOM_COOKIE_NAME" (Val.flags [("toString", true)])
            (some [("maxAge", Val.num 123456789)]),
          Call.status 200,
          Call.json { feature := "toString", action := "1", status := 200
                      message := "fflip: Feature toString is now enabled" } ]) ∧
    (getProp expressIntegration.fflip.features "hasOwnProperty" = none ∧
      (manualRoute expressIntegration
        (reqMock "hasOwnProperty" "1" CookieContainer.null) resExpress).calls =
        [ Call.next (some { message := "FFlip: Cookies are not enabled."
                            fflip := true, statusCode := 500 }) ]) :=
  ⟨⟨by decide, by decide⟩, ⟨by decide, by decide⟩⟩

/-- Where the 404 does come: for a name that is neither registered nor a
member of `Object.prototype`, whatever the action code, the cookie container
and the response, `manualRoute` makes one call only, `next` with an error
tagged `fflip` whose `statusCode` is 404, and leaves the request as it was. -/
theorem manualRoute_not_found_unless_inherited (self : Integration) (req : Request)
    (res : Response)
    (hunknown : getProp self.fflip.features req.params.name = none)
    (hplain : req.params.name ∉ objectPrototypeKeys) :
    ∃ err : FFlipError,
      manualRoute self req res =
        { req := req, calls := [Call.next (some err)], thrown := none } ∧
      err.fflip = true ∧ err.statusCode = 404 ∧
      cookieCalls (manualRoute self req res).calls = [] ∧
      responseCalls (manualRoute self req res).calls = [] := by
  have hcheck : readsUndefined self.fflip.features req.params.name = true := by
    simp [readsUndefined, hunknown, hplain]
  refine ⟨{ message := "FFlip: Feature " ++ req.params.name ++ " not found"
            fflip := true, statusCode := 404 }, ?_, rfl, rfl, ?_, ?_⟩ <;>
    simp [manualRoute, hcheck, cookieCalls, responseCalls]

/-- The test "should propogate a 404 error if feature does not exist": the
name `doesnotexist`, here with an action code that is not valid and no
cookie container. -/
theorem manualRoute_not_found_test_run :
    ∃ err : FFlipError,
      manualRoute expressIntegration (reqMock "doesnotexist" "5" CookieContainer.undefined)
          resMock =
        { req := reqMock "doesnotexist" "5" CookieContainer.undefined
          calls := [Call.next (some err)], thrown := none } ∧
      err.fflip = true ∧ err.statusCode = 404 ∧
      cookieCalls (manualRoute expressIntegration
        (reqMock "doesnotexist" "5" CookieContainer.undefined) resMock).calls = [] ∧
      responseCalls (manualRoute expressIntegration
        (reqMock "doesnotexist" "5" CookieContainer.undefined) resMock).calls = [] :=
  manualRoute_not_found_unless_inherited expressIntegration
    (reqMock "doesnotexist" "5" CookieContainer.undefined) resMock (by decide) (by decide)

/-- C5. For a flag registered with the engine and any action code, when
`req.cookies` is not set or `null`, `manualRoute` makes one call only, `next`
with an error tagged `fflip` whose `statusCode` is 500: no cookie is written,
no response is sent, nothing is thrown, and the request is left as it was. -/
theorem manualRoute_cookies_unavailable (self : Integration) (req : Request) (res : Response)
    (hknown : getProp self.fflip.features req.params.name ≠ none)
    (hcookies : req.cookies = CookieContainer.undefined ∨ req.cookies = CookieContainer.null) :
    ∃ err : FFlipError,
      manualRoute self req res =
        { req := req, calls := [Call.next (some err)], thrown := none } ∧
      err.fflip = true ∧ err.statusCode = 500 ∧
      cookieCalls (manualRoute self req res).calls = [] ∧
      responseCalls (manualRoute self req res).calls = [] := by
  have hcheck := readsUndefined_of_own _ _ hknown
  refine ⟨{ message := "FFlip: Cookies are not enabled.", fflip := true, statusCode := 500 },
    ?_, rfl, rfl, ?_, ?_⟩ <;>
    rcases hcookies with h | h <;>
    simp [manualRoute, hcheck, h, cookieCalls, responseCalls]

/-- C5 at the test suite's request with `req.cookies = null`, and the action
code "5". -/
theorem manualRoute_cookies_unavailable_witness :
    getProp expressIntegration.fflip.features
        (reqMock "fClosed" "5" CookieContainer.null).params.name ≠ none ∧
    ∃ err : FFlipError,
      manualRoute expressIntegration (reqMock "fClosed" "5" CookieContainer.null) resMock =
        { req := reqMock "fClosed" "5" CookieContainer.null
          calls := [Call.next (some err)], thrown := none } ∧
      err.fflip = true ∧ err.statusCode = 500 ∧
      cookieCalls (manualRoute expressIntegration
        (reqMock "fClosed" "5" CookieContainer.null) resMock).calls = [] ∧
      responseCalls (manualRoute expressIntegration
        (reqMock "fClosed" "5" CookieContainer.null) resMock).calls = [] :=
  ⟨by decide,
   manualRoute_cookies_unavailable expressIntegration
     (reqMock "fClosed" "5" CookieContainer.null) resMock (by decide) (Or.inr rfl)⟩

/-- C6. For a flag registered with the engine, a request whose cookie object
is there, whatever its cookies hold, and an action code other than "1", "0"
and "-1", `manualRoute` makes one call only, `next` with an error tagged
`fflip` whose `statusCode` is 400: `res.cookie` is not called, no response is
sent, nothing is thrown, and the cookie object of the request, the override
cookie in it included, is what it was before. -/
theorem manualRoute_bad_input (self : Integration) (req : Request) (res : Response)
    (cookies : List (String × Val))
    (hknown : getProp self.fflip.features req.params.name ≠ none)
    (hcookies : req.cookies = CookieContainer.object cookies)
    (h1 : req.params.action ≠ "1") (h0 : req.params.action ≠ "0")
    (hm1 : req.params.action ≠ "-1") :
    ∃ err : FFlipError,
      (manualRoute self req res).calls = [Call.next (some err)] ∧
      err.fflip = true ∧ err.statusCode = 400 ∧
      cookieCalls (manualRoute self req res).calls = [] ∧
      responseCalls (manualRoute self req res).calls = [] ∧
      (manualRoute self req res).thrown = none ∧
      (manualRoute self req res).req.cookies = CookieContainer.object cookies ∧
      (manualRoute self req res).req = req := by
  rw [manualRoute_of_registered self req res cookies hknown hcookies]
  simp [h1, h0, hm1, cookieCalls, responseCalls, hcookies]

/-- C6 at flag `fClosed`, action "5", with a cookie that holds overrides. -/
theorem manualRoute_bad_input_witness :
    getProp expressIntegration.fflip.features
        (reqMock "fClosed" "5" (CookieContainer.object cookiesMock)).params.name ≠ none ∧
    ∃ err : FFlipError,
      (manualRoute expressIntegration
        (reqMock "fClosed" "5" (CookieContainer.object cookiesMock)) resMock).calls =
          [Call.next (some err)] ∧
      err.fflip = true ∧ err.statusCode = 400 ∧
      cookieCalls (manualRoute expressIntegration
        (reqMock "fClosed" "5" (CookieContainer.object cookiesMock)) resMock).calls = [] ∧
      responseCalls (manualRoute expressIntegration
        (reqMock "fClosed" "5" (CookieContainer.object cookiesMock)) resMock).calls = [] ∧
      (manualRoute expressIntegration
        (reqMock "fClosed" "5" (CookieContainer.object cookiesMock)) resMock).thrown = none ∧
      (manualRoute expressIntegration
        (reqMock "fClosed" "5" (CookieContainer.object cookiesMock)) resMock).req.cookies =
          CookieContainer.object cookiesMock ∧
      (manualRoute expressIntegration
        (reqMock "fClosed" "5" (CookieContainer.object cookiesMock)) resMock).req =
          reqMock "fClosed" "5" (CookieContainer.object cookiesMock) :=
  ⟨by decide,
   manualRoute_bad_input expressIntegration
     (reqMock "fClosed" "5" (CookieContainer.object cookiesMock)) resMock cookiesMock
     (by decide) rfl (by decide) (by decide) (by decide)⟩

/-- The tests "should set the right cookie flags" and "should send back 200
json response on successful call", on the suite's request and response:
`res.cookie` gets the configured name, `fClosed: true` and the configured
options; then `res.status(200)` throws on the mock, which has no such
method, and `res.json` is not called. -/
theorem manualRoute_test_run :
    (manualRoute expressIntegration
      (reqMock "fClosed" "1" (CookieContainer.object [])) resMock).calls =
      [ Call.cookie "CUSTOM_COOKIE_NAME" (Val.flags [("fClosed", true)])
          (some [("maxAge", Val.num 123456789)]) ] ∧
    (manualRoute expressIntegration
      (reqMock "fClosed" "1" (CookieContainer.object [])) resMock).thrown =
      some (JSError.typeError "res.status is not a function") :=
  ⟨by decide, by decide⟩

/-- The write of a successful action does show in the request when the
cookie holds a mapping: after action "0" on `fClosed` the override mapping
held in `req.cookies` has changed. -/
theorem manualRoute_success_writes_through :
    (manualRoute expressIntegration
      (reqMock "fClosed" "0" (CookieContainer.object cookiesMock)) resExpress).req.cookies =
      CookieContainer.object
        [("CUSTOM_COOKIE_NAME", Val.flags [("fOpen", false), ("fClosed", false)])] := by
  decide

/-! ## The middleware -/

/-- What `middleware` does when the cookie object is there: it attaches the
resolver built from the cookie of the configured name, keeps the render in
`res._render`, installs the wrapper, and calls `next()` once, with no
argument. -/
theorem middleware_of_cookies (self : Integration) (req : Request) (res : Response)
    (cookies : List (String × Val))
    (hcookies : req.cookies = CookieContainer.object cookies) :
    middleware self req res =
      Except.ok
        ({ req with fflip := some (FFlipRequestObject.create self.fflip
              (getProp cookies self.options.cookieName)) },
         { res with render := RenderFn.wrapper, _render := some res.render },
         [Call.next none]) := by
  simp only [middleware, hcookies]

/-- C7 fails on a request without a cookie container: when `req.cookies` is
not set, or is `null`, `middleware` throws a `TypeError` at
`req.cookies[cookieName]`: no resolver is attached and `next` is not
called. -/
theorem middleware_throws_without_cookie_container :
    middleware expressIntegration (reqMock "fClosed" "1" CookieContainer.undefined) resMock =
      Except.error (JSError.typeError "Cannot read properties of undefined") ∧
    middleware expressIntegration (reqMock "fClosed" "1" CookieContainer.null) resMock =
      Except.error (JSError.typeError "Cannot read properties of null") :=
  ⟨rfl, rfl⟩

/-- C8. After `middleware` has run on a request whose cookie object is there
and a response whose render is the host's function `fn`, a call
`res.render(view, options, callback)`, with any view, any callback, any
template data or none, and any resolver `resolver` on the request at the
time of the call (the middleware has attached one), does not throw (given stack for one nested call) and calls
`fn` exactly once, with the same view and callback and with template data in
which `Features` is `resolver.features`, `FeaturesJSON` is `JSON.stringify`
of that mapping, and every other key reads what the caller supplied (nothing,
when no template data was passed). -/
theorem render_wrapper_injects_features (JSON_stringify : Flags → String)
    (self : Integration) (req : Request) (res : Response) (cookies : List (String × Val))
    (fn : Nat) (reqNow : Request) (resolver : FFlipRequestObject)
    (depth : Nat) (view : String) (options : Option Obj) (callback : Option FnRef)
    (hcookies : req.cookies = CookieContainer.object cookies)
    (hrender : res.render = RenderFn.host fn)
    (hresolver : reqNow.fflip = some resolver) :
    ∃ (req' : Request) (res' : Response) (calls : List Call) (data : Obj),
      middleware self req res = Except.ok (req', res', calls) ∧
      req'.fflip.isSome = true ∧
      Response.callRenderField JSON_stringify (depth + 1) reqNow res' view options callback =
        Except.ok [Call.render fn view (some data) callback] ∧
      getProp data "Features" = some (Val.flags resolver.features) ∧
      getProp data "FeaturesJSON" = some (Val.str (JSON_stringify resolver.features)) ∧
      ∀ k : String, k ≠ "Features" → k ≠ "FeaturesJSON" →
        getProp data k = getProp (orEmpty options) k := by
  refine ⟨_, _, _,
    setProp (setProp (orEmpty options) "Features" (Val.flags resolver.features))
      "FeaturesJSON" (Val.str (JSON_stringify resolver.features)),
    middleware_of_cookies self req res cookies hcookies, rfl, ?_, ?_, ?_, ?_⟩
  · simp [Response.callRenderField, callRender, hresolver, hrender]
  · simp [getProp_setProp]
  · simp [getProp_setProp]
  · intro k hF hJ
    simp [getProp_setProp, hF, hJ]

/-- C8 on the test suite's run: overrides in the cookie, the resolver set to
a features mapping, `res.render('testview', {title: 'Home'})`. -/
theorem render_wrapper_injects_features_witness :
    ∃ (req' : Request) (res' : Response) (calls : List Call) (data : Obj),
      middleware expressIntegration
          (reqMock "fClosed" "1" (CookieContainer.object cookiesMock)) resMock =
        Except.ok (req', res', calls) ∧
      req'.fflip.isSome = true ∧
      Response.callRenderField stringifyFlags (1 + 1)
          { reqMock "fClosed" "1" (CookieContainer.object cookiesMock) with
            fflip := some { _fflip := testFFlip, _flags := [], features := [("fClosed", true)] } }
          res' "testview" (some [("title", Val.str "Home")]) none =
        Except.ok [Call.render 0 "testview" (some data) none] ∧
      getProp data "Features" = some (Val.flags
        (FFlipRequestObject.mk testFFlip [] [("fClosed", true)]).features) ∧
      getProp data "FeaturesJSON" = some (Val.str (stringifyFlags
        (FFlipRequestObject.mk testFFlip [] [("fClosed", true)]).features)) ∧
      ∀ k : String, k ≠ "Features" → k ≠ "FeaturesJSON" →
        getProp data k = getProp (orEmpty (some [("title", Val.str "Home")])) k :=
  render_wrapper_injects_features stringifyFlags expressIntegration
    (reqMock "fClosed" "1" (CookieContainer.object cookiesMock)) resMock cookiesMock 0
    { reqMock "fClosed" "1" (CookieContainer.object cookiesMock) with
      fflip := some { _fflip := testFFlip, _flags := [], features := [("fClosed", true)] } }
    { _fflip := testFFlip, _flags := [], features := [("fClosed", true)] }
    1 "testview" (some [("title", Val.str "Home")]) none rfl rfl rfl

/-- The test "should wrap res.render() to set features object automatically":
the template data the host render receives. -/
theorem render_wrapper_test_run :
    Response.callRenderField stringifyFlags 8
        { reqMock "fClosed" "1" (CookieContainer.object cookiesMock) with
          fflip := some { _fflip := testFFlip, _flags := [], features := [("fClosed", true)] } }
        { render := RenderFn.wrapper, _render := some (RenderFn.host 0), status := false }
        "testview" none none =
      Except.ok [Call.render 0 "testview"
        (some [("Features", Val.flags [("fClosed", true)]),
               ("FeaturesJSON", Val.str "\x7b\"fClosed\":true\x7d")]) none] := by
  rfl

/-! ## The resolver the middleware attaches -/

/-- C10. Let `middleware` run on a request whose cookie object is there, and
let the overrides be the mapping decoded from the cookie of the configured
name (empty when that cookie is missing or holds no mapping). For every user
context and flag id, after
`setForUser` the attached resolver's `has` equals the override's value when
the flag is in the overrides, equals the engine's value for that user when
the flag is absent from the overrides, and is false when the flag is in
neither. -/
theorem middleware_resolver_layering (self : Integration) (req : Request) (res : Response)
    (cookies : List (String × Val)) (ctx : UserContext) (f : String)
    (hcookies : req.cookies = CookieContainer.object cookies) :
    ∃ (req' : Request) (res' : Response) (calls : List Call) (resolver : FFlipRequestObject),
      middleware self req res = Except.ok (req', res', calls) ∧
      req'.fflip = some resolver ∧
      (∀ b : Bool, getProp (decodeOverrides (getProp cookies self.options.cookieName)) f = some b →
        (resolver.setForUser ctx).has f = b) ∧
      (getProp (decodeOverrides (getProp cookies self.options.cookieName)) f = none →
        ∀ v : Bool, getProp (self.fflip.evaluate ctx) f = some v →
          (resolver.setForUser ctx).has f = v) ∧
      (getProp (decodeOverrides (getProp cookies self.options.cookieName)) f = none →
        getProp (self.fflip.evaluate ctx) f = none →
          (resolver.setForUser ctx).has f = false) := by
  refine ⟨_, _, _, FFlipRequestObject.create self.fflip
      (getProp cookies self.options.cookieName),
    middleware_of_cookies self req res cookies hcookies, rfl, ?_, ?_, ?_⟩
  · intro b hb
    simp only [FFlipRequestObject.has, FFlipRequestObject.setForUser,
      FFlipRequestObject.create, getProp_overlay, hb]
    cases b <;> rfl
  · intro hnone v hv
    simp only [FFlipRequestObject.has, FFlipRequestObject.setForUser,
      FFlipRequestObject.create, getProp_overlay, hnone, hv]
    cases v <;> rfl
  · intro hnone hv
    simp only [FFlipRequestObject.has, FFlipRequestObject.setForUser,
      FFlipRequestObject.create, getProp_overlay, hnone, hv]

/-- C10 on the test suite's run: the cookie overrides `fClosed` to true, the
user is `userXYZ`, the flag asked for is `fClosed`. -/
theorem middleware_resolver_layering_witness :
    ∃ (req' : Request) (res' : Response) (calls : List Call) (resolver : FFlipRequestObject),
      middleware expressIntegration
          (reqMock "fClosed" "1" (CookieContainer.object cookiesMock)) resMock =
        Except.ok (req', res', calls) ∧
      req'.fflip = some resolver ∧
      (∀ b : Bool,
        getProp (decodeOverrides (getProp cookiesMock expressIntegration.options.cookieName))
          "fClosed" = some b →
        (resolver.setForUser userXYZ).has "fClosed" = b) ∧
      (getProp (decodeOverrides (getProp cookiesMock expressIntegration.options.cookieName))
          "fClosed" = none →
        ∀ v : Bool, getProp (expressIntegration.fflip.evaluate userXYZ) "fClosed" = some v →
          (resolver.setForUser userXYZ).has "fClosed" = v) ∧
      (getProp (decodeOverrides (getProp cookiesMock expressIntegration.options.cookieName))
          "fClosed" = none →
        getProp (expressIntegration.fflip.evaluate userXYZ) "fClosed" = none →
          (resolver.setForUser userXYZ).has "fClosed" = false) :=
  middleware_resolver_layering expressIntegration
    (reqMock "fClosed" "1" (CookieContainer.object cookiesMock)) resMock cookiesMock
    userXYZ "fClosed" rfl

/-- The test "req.fflip.has() should get the correct features", with the
suite's cookie `{fClosed: true}`: `fOpen` is on by the engine, `fClosed` is
on by the override, and a name that is no feature is off. -/
theorem resolver_test_run :
    ((FFlipRequestObject.create testFFlip (some (Val.flags [("fClosed", true)]))).setForUser userXYZ).has
        "fOpen" = true ∧
    ((FFlipRequestObject.create testFFlip (some (Val.flags [("fClosed", true)]))).setForUser userXYZ).has
        "fClosed" = true ∧
    ((FFlipRequestObject.create testFFlip (some (Val.flags [("fClosed", true)]))).setForUser userXYZ).has
        "notafeature" = false := by
  decide

/-- A plain string cookie gives the resolver no overrides: with the cookie
`CUSTOM_COOKIE_NAME=abc` the attached resolver answers as the engine does. -/
theorem resolver_plain_cookie_run :
    ((FFlipRequestObject.create testFFlip (getProp cookiesPlain "CUSTOM_COOKIE_NAME")).setForUser
        userXYZ).has "fOpen" = true ∧
    ((FFlipRequestObject.create testFFlip (getProp cookiesPlain "CUSTOM_COOKIE_NAME")).setForUser
        userXYZ).has "fClosed" = false := by
  decide

/-! ## The constructor's options -/

/-- C9, as the code has it. A supplied `cookieName` or `manualRoutePath` that
is not the empty string is held as supplied, and `cookieOptions` is held as
supplied (undefined when not supplied); a `cookieName` or `manualRoutePath`
that is not supplied, or is the empty string, gives the default "fflip" or
"/fflip/:name/:action"; without an options object all three are the
defaults. The options are exactly these three fields. -/
theorem FFlipExpressIntegration_options (fflip : FFlip) :
    (∀ (u : UserOptions) (s : String), u.cookieName = some s → s ≠ "" →
      (FFlipExpressIntegration fflip (some u)).options.cookieName = s) ∧
    (∀ (u : UserOptions) (s : String), u.manualRoutePath = some s → s ≠ "" →
      (FFlipExpressIntegration fflip (some u)).options.manualRoutePath = s) ∧
    (∀ u : UserOptions,
      (FFlipExpressIntegration fflip (some u)).options.cookieOptions = u.cookieOptions) ∧
    (∀ u : UserOptions, u.cookieName = none ∨ u.cookieName = some "" →
      (FFlipExpressIntegration fflip (some u)).options.cookieName = "fflip") ∧
    (∀ u : UserOptions, u.manualRoutePath = none ∨ u.manualRoutePath = some "" →
      (FFlipExpressIntegration fflip (some u)).options.manualRoutePath =
        "/fflip/:name/:action") ∧
    (FFlipExpressIntegration fflip none).options =
      { cookieName := "fflip", cookieOptions := none,
        manualRoutePath := "/fflip/:name/:action" } := by
  refine ⟨?_, ?_, ?_, ?_, ?_, rfl⟩
  · intro u s hs hne
    simp [FFlipExpressIntegration, orString, hs, hne]
  · intro u s hs hne
    simp [FFlipExpressIntegration, orString, hs, hne]
  · intro u
    rfl
  · intro u hu
    rcases hu with h | h <;> simp [FFlipExpressIntegration, orString, h]
  · intro u hu
    rcases hu with h | h <;> simp [FFlipExpressIntegration, orString, h]

/-- C9 as amended, on the test suite's `customizationOptions`. -/
theorem FFlipExpressIntegration_options_witness :
    (FFlipExpressIntegration testFFlip (some customizationOptions)).options.cookieName =
        "CUSTOM_COOKIE_NAME" ∧
    (FFlipExpressIntegration testFFlip (some customizationOptions)).options.manualRoutePath =
        "CUSTOM/PATH/:name/:action" ∧
    (FFlipExpressIntegration testFFlip (some customizationOptions)).options.cookieOptions =
        customizationOptions.cookieOptions :=
  ⟨(FFlipExpressIntegration_options testFFlip).1 customizationOptions "CUSTOM_COOKIE_NAME"
      rfl (by decide),
   (FFlipExpressIntegration_options testFFlip).2.1 customizationOptions
      "CUSTOM/PATH/:name/:action" rfl (by decide),
   (FFlipExpressIntegration_options testFFlip).2.2.1 customizationOptions⟩

/-- C9 as stated fails: a caller who supplies the empty string as
`cookieName` and as `manualRoutePath` gets options that hold "fflip" and
"/fflip/:name/:action", not the supplied values. -/
theorem FFlipExpressIntegration_options_counterexample :
    (FFlipExpressIntegration testFFlip
      (some { cookieName := some "", cookieOptions := none,
              manualRoutePath := some "" })).options.cookieName ≠ "" ∧
    (FFlipExpressIntegration testFFlip
      (some { cookieName := some "", cookieOptions := none,
              manualRoutePath := some "" })).options.manualRoutePath ≠ "" ∧
    (FFlipExpressIntegration testFFlip
      (some { cookieName := some "", cookieOptions := none,
              manualRoutePath := some "" })).options =
      { cookieName := "fflip", cookieOptions := none,
        manualRoutePath := "/fflip/:name/:action" } := by
  decide

end FFlipExpress
